import Mathlib

/-!
Verification of the session-oriented streaming conversation controller of
the gatekeeper backend ( `src/app.py` ).

Shallow embedding conventions:
* `ConversationSession` becomes the record `Session`; its two
  `asyncio.Queue`s become lists whose head is the next element dequeued and
  whose back is where `put` appends.
* The autogen engine stream consumed by `ConversationSession._run` becomes a
  list of `EngineItem`s (the items the `async for` loop sees) followed by a
  `StreamEnd` describing how the loop ends: normal exhaustion or an
  exception raised while consuming (the `except` branch).  The exception is
  modelled at item granularity: a prefix of the stream was consumed, then
  the exception fired.
* `message.to_text()` results are carried directly in `ChatMessage.text`
  (both branches of `_handle_chat_message` call `to_text`).
* The HTTP handlers become pure functions from a registry (a map from
  session id to `Session`) to a response together with the updated
  registry; `HTTPException` becomes the `Except.error` case carrying the
  status code.  The long-poll wait of `get_events` is abstracted by an
  `arrivals` parameter: the events the background task pushes onto the
  output queue between the first drain of the handler and its final drain
  (`arrivals = []` models the `asyncio.TimeoutError` case).
* Python string semantics (`in`, `.upper()`, `.strip()`, truthiness of
  `str` / `None`) are embedded explicitly for the ASCII strings involved.
-/

namespace GatekeeperApp

/-- A chat message as the pump sees it: the producing agent ( `source` ) and
the result of `to_text()`. -/
structure ChatMessage where
  source : String
  text : String
deriving DecidableEq, Repr

/-- One queued event record (the JSON-shaped dicts of `app.py` ).
`tagged etype role content` covers the dicts built by `_emit_message`
(with `etype` either "message" or "secret") and the generic agent-event
dict (`etype` = "event"); `status` covers `_emit_status` (with the
`details` key omitted when falsy); `inputRequired` is the bare
input-required marker dict. -/
inductive Event where
  | tagged (etype role content : String)
  | status (code : String) (details : Option String)
  | inputRequired
deriving DecidableEq, Repr

/-- The termination marker scanned for by the session ("TERMINATE"). -/
def TERMINATE_MARKER : String := "TERMINATE"

/-- Python substring test `sub in hay` on character lists. -/
def containsSub (sub : List Char) : List Char → Bool
  | [] => sub.isEmpty
  | c :: rest => sub.isPrefixOf (c :: rest) || containsSub sub rest

/-- Python `sub in hay` for strings. -/
def strContains (hay sub : String) : Bool := containsSub sub.data hay.data

/-- Python `str.upper()` (the strings involved are ASCII, where
`Char.toUpper` agrees with Python). -/
def pyUpper (s : String) : String := String.mk (s.data.map Char.toUpper)

/-- The stop-reason half of the secret gate:
`self.stop_reason and "TERMINATE" in self.stop_reason.upper()`.
`None` and the empty string are falsy in Python, short-circuiting `and`. -/
def stopReasonTriggers : Option String → Bool
  | none => false
  | some r => (!(r == "")) && strContains (pyUpper r) TERMINATE_MARKER

/-- The state of one `ConversationSession` (dataclass defaults mirrored).
`task_started` models `self._task is not None`. -/
structure Session where
  session_id : String
  input_queue : List String := []
  output_queue : List Event := []
  history : List Event := []
  completed : Bool := false
  termination_detected : Bool := false
  secret_revealed : Bool := false
  stop_reason : Option String := none
  task_started : Bool := false
deriving DecidableEq, Repr

/-- A freshly constructed session, as built by `create_session`. -/
def initSession (id : String) : Session := { session_id := id }

/-- `enqueue_user_message`: append to the (unbounded) input queue. -/
def enqueueUserMessage (s : Session) (content : String) : Session :=
  { s with input_queue := s.input_queue ++ [content] }

/-- `drain_output_nowait`: the `get_nowait` loop returns every currently
queued event in order and leaves the queue empty; it never blocks. -/
def drainOutputNowait (s : Session) : List Event × Session :=
  (s.output_queue, { s with output_queue := [] })

/-- One successful `input_queue.get()` inside `_user_input`: `none` when the
queue is empty (the coroutine would suspend). -/
def userInputTake (s : Session) : Option (String × Session) :=
  match s.input_queue with
  | [] => none
  | x :: rest => some (x, { s with input_queue := rest })

/-- A bare `output_queue.put(e)`. -/
def pushOutput (s : Session) (e : Event) : Session :=
  { s with output_queue := s.output_queue ++ [e] }

/-- `_emit_message`: the payload dict goes to both the history and the
output queue. -/
def emitMessage (s : Session) (role content mtype : String) : Session :=
  { s with history := s.history ++ [Event.tagged mtype role content],
           output_queue := s.output_queue ++ [Event.tagged mtype role content] }

/-- Python `if details: payload["details"] = details`: `None` and the empty
string are both falsy, omitting the key. -/
def truthyDetails : Option String → Option String
  | none => none
  | some d => if d == "" then none else some d

/-- `_emit_status`: the status dict goes to the output queue only. -/
def emitStatus (s : Session) (code : String) (details : Option String) : Session :=
  { s with output_queue := s.output_queue ++ [Event.status code (truthyDetails details)] }

/-- `_maybe_reveal_secret` at secret value `sc`. -/
def maybeRevealSecret (sc : String) (s : Session) : Session :=
  if s.secret_revealed then s
  else if s.termination_detected || stopReasonTriggers s.stop_reason then
    emitMessage { s with secret_revealed := true } "system" ("Secret Code: " ++ sc) "secret"
  else s

/-- `_handle_chat_message`: scan `to_text()` for the marker (case-sensitive
Python `in`), then emit the message event. -/
def handleChatMessage (s : Session) (m : ChatMessage) : Session :=
  let content := m.text
  let s1 :=
    if strContains content TERMINATE_MARKER then
      { s with termination_detected := true }
    else s
  emitMessage s1 m.source content "message"

/-- One item of the engine stream, by the `isinstance` chain of `_run`:
`TaskResult`, `Response` (carrying its `chat_message`), a bare
`BaseChatMessage`, `UserInputRequestedEvent`,
`ModelClientStreamingChunkEvent`, or any other `BaseAgentEvent`. -/
inductive EngineItem where
  | taskResult (stop_reason : Option String)
  | response (msg : ChatMessage)
  | chatMessage (msg : ChatMessage)
  | userInputRequested
  | streamingChunk
  | agentEvent (source text : String)
deriving DecidableEq, Repr

/-- The body of the `async for` loop of `_run` for one item. -/
def pumpItem (sc : String) (s : Session) : EngineItem → Session
  | .taskResult r => maybeRevealSecret sc { s with completed := true, stop_reason := r }
  | .response m => handleChatMessage s m
  | .chatMessage m => handleChatMessage s m
  | .userInputRequested => pushOutput s Event.inputRequired
  | .streamingChunk => s
  | .agentEvent src txt => pushOutput s (Event.tagged "event" src txt)

/-- How the `async for` loop of `_run` stops consuming the stream. -/
inductive StreamEnd where
  | exhausted
  | raised (msg : String)
deriving DecidableEq, Repr

/-- The `finally` block of `_run`. -/
def finallyBlock (sc : String) (s : Session) : Session :=
  let s1 := maybeRevealSecret sc s
  if s1.completed then s1 else emitStatus { s1 with completed := true } "ended" none

/-- The `except` handler (when the loop raised) followed by the `finally`
block. -/
def runEnd (sc : String) (s : Session) : StreamEnd → Session
  | .exhausted => finallyBlock sc s
  | .raised msg => finallyBlock sc (emitStatus { s with completed := true } "error" (some msg))

/-- Consuming a list of stream items. -/
def pumpAll (sc : String) (s : Session) (items : List EngineItem) : Session :=
  items.foldl (pumpItem sc) s

/-- One complete run of `_run`: consume the items the stream yields, then
end the way the stream ends. -/
def runPump (sc : String) (s : Session) (items : List EngineItem) (e : StreamEnd) : Session :=
  runEnd sc (pumpAll sc s items) e

/-- The synthetic greeting role used by `start`. -/
def GREETING_ROLE : String := "greeting_assistant"

/-- The synthetic greeting text used by `start`. -/
def GREETING_MESSAGE : String := "Hello there!"

/-- `ConversationSession.start`: no-op when the task already exists,
otherwise emit the greeting and launch the background task. -/
def start (s : Session) : Session :=
  if s.task_started then s
  else { emitMessage s GREETING_ROLE GREETING_MESSAGE "message" with task_started := true }

/-- Is an event a distinguished secret-reveal event? -/
def isSecretEvent : Event → Bool
  | .tagged t _ _ => t == "secret"
  | _ => false

/-- Number of secret-reveal events ever emitted by a session.  Secret
events are emitted through `_emit_message`, which appends them to the
append-only `history` as well as to the output queue, so the history count
is the emission count even across interleaved drains. -/
def secretCount (s : Session) : Nat := s.history.countP isSecretEvent

/-- Is an event a status event? -/
def isStatusEvent : Event → Bool
  | .status _ _ => true
  | _ => false

/-- Number of status events in a list of events. -/
def statusCount (evs : List Event) : Nat := evs.countP isStatusEvent

/-- Is a stream item the terminal `TaskResult`? -/
def isTaskResult : EngineItem → Bool
  | .taskResult _ => true
  | _ => false

/-- Does processing the item set `termination_detected`? -/
def itemSetsTermination : EngineItem → Bool
  | .response m => strContains m.text TERMINATE_MARKER
  | .chatMessage m => strContains m.text TERMINATE_MARKER
  | _ => false

/-- Python `str.strip()` restricted to the ASCII whitespace characters it
removes (the request bodies involved are ASCII). -/
def pyIsSpace (c : Char) : Bool :=
  c == ' ' || c == '\t' || c == '\n' || c == '\r' || c == '\x0b' || c == '\x0c'

/-- Python `content.strip()`. -/
def pyStrip (s : String) : String :=
  String.mk (((s.data.dropWhile pyIsSpace).reverse.dropWhile pyIsSpace).reverse)

/-- A raised `HTTPException`: status code and detail. -/
structure HttpError where
  status : Nat
  detail : String
deriving DecidableEq, Repr

/-- The success body of `send_message`. -/
structure MessageAck where
  status : String
deriving DecidableEq, Repr

/-- The success body of `get_events`. -/
structure EventsResponse where
  events : List Event
  completed : Bool
  secret_unlocked : Bool
deriving DecidableEq, Repr

/-- The `SessionManager` registry: a map from session id to session. -/
abbrev SessionManager := String → Option Session

/-- `SessionManager.get_session`: unknown ids raise a 404. -/
def get_session (mgr : SessionManager) (id : String) : Except HttpError Session :=
  match mgr id with
  | none => Except.error ⟨404, "Session not found"⟩
  | some s => Except.ok s

/-- Store (or overwrite) the session registered under `id`. -/
def setSession (mgr : SessionManager) (id : String) (s : Session) : SessionManager :=
  fun k => if k = id then some s else mgr k

/-- The `POST /api/session/.../message` handler `send_message`: look the
session up (404), strip the content, reject emptiness (400), otherwise
enqueue the stripped content and acknowledge.  The result of the handler is
paired with the registry as it is left behind. -/
def send_message (mgr : SessionManager) (id content : String) :
    Except HttpError MessageAck × SessionManager :=
  match get_session mgr id with
  | Except.error e => (Except.error e, mgr)
  | Except.ok s =>
    let c := pyStrip content
    if c = "" then (Except.error ⟨400, "Message cannot be empty"⟩, mgr)
    else (Except.ok ⟨"accepted"⟩, setSession mgr id (enqueueUserMessage s c))

/-- The `GET /api/session/.../events` handler `get_events`: look the
session up (404), drain, and when nothing was drained and `timeout > 0`
long-poll for one more event before the final drain.  `arrivals` lists the
events the background task pushes between the first drain and the final
drain; `arrivals = []` in the waiting branch is the `asyncio.TimeoutError`
case.  `timeout` is validated by FastAPI to lie in `[0, 30]`. -/
def get_events (mgr : SessionManager) (id : String) (timeout : Rat)
    (arrivals : List Event) : Except HttpError EventsResponse × SessionManager :=
  match get_session mgr id with
  | Except.error e => (Except.error e, mgr)
  | Except.ok s =>
    let drained := (drainOutputNowait s).1
    let s1 := (drainOutputNowait s).2
    if drained = [] ∧ 0 < timeout then
      match arrivals with
      | [] =>
        (Except.ok ⟨[], s.completed, s.secret_revealed⟩, setSession mgr id s1)
      | a :: rest =>
        (Except.ok ⟨a :: rest, s.completed, s.secret_revealed⟩, setSession mgr id s1)
    else
      (Except.ok ⟨drained ++ arrivals, s.completed, s.secret_revealed⟩, setSession mgr id s1)

/-- Every state-changing operation `ConversationSession` performs, for the
flag-monotonicity invariant: the public operations, one input-queue `get`,
one loop iteration of the pump, the `except` handler, and the `finally`
block. -/
inductive SessionOp where
  | startOp
  | enqueueOp (content : String)
  | drainOp
  | userInputOp
  | pump (it : EngineItem)
  | exceptOp (msg : String)
  | finallyOp
deriving DecidableEq, Repr

/-- Effect of one operation on the session state (secret value `sc`). -/
def stepOp (sc : String) (s : Session) : SessionOp → Session
  | .startOp => start s
  | .enqueueOp content => enqueueUserMessage s content
  | .drainOp => (drainOutputNowait s).2
  | .userInputOp =>
    match userInputTake s with
    | none => s
    | some (_, s2) => s2
  | .pump it => pumpItem sc s it
  | .exceptOp msg => emitStatus { s with completed := true } "error" (some msg)
  | .finallyOp => finallyBlock sc s

/-- Running a list of operations in order. -/
def runOps (sc : String) (s : Session) (ops : List SessionOp) : Session :=
  ops.foldl (stepOp sc) s

/-- A sequence of `output_queue.put` calls by the producer. -/
def pushOutputs (s : Session) (evs : List Event) : Session :=
  evs.foldl pushOutput s

/-- A sequence of `enqueue_user_message` calls by the client. -/
def enqueueAll (s : Session) (msgs : List String) : Session :=
  msgs.foldl enqueueUserMessage s

/-- Count bookkeeping for the secret gate: the number of secret-reveal
events ever emitted matches the `secret_revealed` flag. -/
def goodCount (s : Session) : Prop :=
  secretCount s = if s.secret_revealed then 1 else 0

/-- Concrete registry with no sessions, for witnesses. -/
def mgrEmpty : SessionManager := fun _ => none

/-- Concrete session with one pending event, for witnesses. -/
def sampleSession : Session :=
  { initSession "abc" with output_queue := [Event.inputRequired] }

/-- Concrete registry holding `sampleSession` under "abc", for witnesses. -/
def mgrOne : SessionManager :=
  fun k => if k = "abc" then some sampleSession else none

/-- Concrete session with all three flags raised, for witnesses. -/
def flaggedSession : Session :=
  { initSession "m" with
    completed := true
    termination_detected := true
    secret_revealed := true }

/-! Unfolding equations for the `isinstance` dispatch of the pump. -/

theorem pumpItem_taskResult (sc : String) (s : Session) (r : Option String) :
    pumpItem sc s (EngineItem.taskResult r)
      = maybeRevealSecret sc { s with completed := true, stop_reason := r } := rfl

theorem pumpItem_response (sc : String) (s : Session) (m : ChatMessage) :
    pumpItem sc s (EngineItem.response m) = handleChatMessage s m := rfl

theorem pumpItem_chatMessage (sc : String) (s : Session) (m : ChatMessage) :
    pumpItem sc s (EngineItem.chatMessage m) = handleChatMessage s m := rfl

theorem pumpAll_nil (sc : String) (s : Session) : pumpAll sc s [] = s := rfl

theorem pumpAll_cons (sc : String) (s : Session) (it : EngineItem)
    (items : List EngineItem) :
    pumpAll sc s (it :: items) = pumpAll sc (pumpItem sc s it) items := rfl

theorem pumpAll_append (sc : String) (s : Session) (l1 l2 : List EngineItem) :
    pumpAll sc s (l1 ++ l2) = pumpAll sc (pumpAll sc s l1) l2 := by
  simp [pumpAll, List.foldl_append]

/-- The fresh session right after `create_session` ran `start` on it. -/
theorem start_initSession (id : String) :
    start (initSession id) =
      { session_id := id, input_queue := [],
        output_queue := [Event.tagged "message" GREETING_ROLE GREETING_MESSAGE],
        history := [Event.tagged "message" GREETING_ROLE GREETING_MESSAGE],
        completed := false, termination_detected := false,
        secret_revealed := false, stop_reason := none, task_started := true } := rfl

/-! Field bookkeeping for each session operation. -/

theorem handleChat_flags (s : Session) (m : ChatMessage) :
    (handleChatMessage s m).secret_revealed = s.secret_revealed ∧
    (handleChatMessage s m).stop_reason = s.stop_reason ∧
    (handleChatMessage s m).completed = s.completed ∧
    (handleChatMessage s m).input_queue = s.input_queue ∧
    (handleChatMessage s m).history
      = s.history ++ [Event.tagged "message" m.source m.text] ∧
    (handleChatMessage s m).termination_detected
      = (s.termination_detected || strContains m.text TERMINATE_MARKER) := by
  cases h : strContains m.text TERMINATE_MARKER <;>
    simp [handleChatMessage, emitMessage, h]

theorem maybeReveal_flags (sc : String) (s : Session) :
    (maybeRevealSecret sc s).termination_detected = s.termination_detected ∧
    (maybeRevealSecret sc s).stop_reason = s.stop_reason ∧
    (maybeRevealSecret sc s).completed = s.completed ∧
    (maybeRevealSecret sc s).input_queue = s.input_queue ∧
    (maybeRevealSecret sc s).secret_revealed
      = (s.secret_revealed || (s.termination_detected || stopReasonTriggers s.stop_reason)) := by
  cases h1 : s.secret_revealed
  · cases h2 : (s.termination_detected || stopReasonTriggers s.stop_reason) <;>
      simp [maybeRevealSecret, emitMessage, h1, h2]
  · simp [maybeRevealSecret, h1]

theorem finallyBlock_flags (sc : String) (s : Session) :
    (finallyBlock sc s).termination_detected = s.termination_detected ∧
    (finallyBlock sc s).stop_reason = s.stop_reason ∧
    (finallyBlock sc s).completed = true ∧
    (finallyBlock sc s).secret_revealed
      = (s.secret_revealed || (s.termination_detected || stopReasonTriggers s.stop_reason)) := by
  obtain ⟨ht, hsr, hc, _, hrev⟩ := maybeReveal_flags sc s
  by_cases h2 : (maybeRevealSecret sc s).completed = true
  · refine ⟨?_, ?_, ?_, ?_⟩ <;> simp [finallyBlock, h2, ht, hsr, hrev]
  · refine ⟨?_, ?_, ?_, ?_⟩ <;> simp [finallyBlock, h2, emitStatus, ht, hsr, hrev]

theorem runEnd_flags (sc : String) (s : Session) (e : StreamEnd) :
    (runEnd sc s e).termination_detected = s.termination_detected ∧
    (runEnd sc s e).stop_reason = s.stop_reason ∧
    (runEnd sc s e).completed = true ∧
    (runEnd sc s e).secret_revealed
      = (s.secret_revealed || (s.termination_detected || stopReasonTriggers s.stop_reason)) := by
  cases e with
  | exhausted => exact finallyBlock_flags sc s
  | raised msg =>
    have h := finallyBlock_flags sc (emitStatus { s with completed := true } "error" (some msg))
    simpa [runEnd, emitStatus] using h

theorem pumpItem_free (sc : String) (s : Session) (it : EngineItem)
    (h : isTaskResult it = false) :
    (pumpItem sc s it).secret_revealed = s.secret_revealed ∧
    (pumpItem sc s it).stop_reason = s.stop_reason ∧
    (pumpItem sc s it).completed = s.completed ∧
    (s.termination_detected = true → (pumpItem sc s it).termination_detected = true) := by
  cases it with
  | taskResult r => simp [isTaskResult] at h
  | response m =>
    obtain ⟨h1, h2, h3, _, _, h6⟩ := handleChat_flags s m
    rw [pumpItem_response]
    exact ⟨h1, h2, h3, fun hh => by simp [h6, hh]⟩
  | chatMessage m =>
    obtain ⟨h1, h2, h3, _, _, h6⟩ := handleChat_flags s m
    rw [pumpItem_chatMessage]
    exact ⟨h1, h2, h3, fun hh => by simp [h6, hh]⟩
  | userInputRequested => exact ⟨rfl, rfl, rfl, fun hh => hh⟩
  | streamingChunk => exact ⟨rfl, rfl, rfl, fun hh => hh⟩
  | agentEvent src txt => exact ⟨rfl, rfl, rfl, fun hh => hh⟩

/-- Folding a stream segment with no terminal result never touches the
secret flag, the stop reason, or the completion flag, and only ever raises
`termination_detected`. -/
theorem pumpAll_taskFree (sc : String) (items : List EngineItem)
    (h : items.countP isTaskResult = 0) (s : Session) :
    (pumpAll sc s items).secret_revealed = s.secret_revealed ∧
    (pumpAll sc s items).stop_reason = s.stop_reason ∧
    (pumpAll sc s items).completed = s.completed ∧
    (s.termination_detected = true → (pumpAll sc s items).termination_detected = true) := by
  induction items generalizing s with
  | nil => simp [pumpAll]
  | cons it items ih =>
    rw [List.countP_cons] at h
    have hit : isTaskResult it = false := by
      by_cases hx : isTaskResult it = true
      · simp [hx] at h
      · simpa using hx
    have hrest : items.countP isTaskResult = 0 := by
      simpa [hit] using h
    obtain ⟨a1, a2, a3, a4⟩ := pumpItem_free sc s it hit
    obtain ⟨b1, b2, b3, b4⟩ := ih hrest (pumpItem sc s it)
    rw [pumpAll_cons]
    exact ⟨b1.trans a1, b2.trans a2, b3.trans a3, fun hh => b4 (a4 hh)⟩

/-- Folding a stream segment with neither a terminal result nor a
marker-bearing chat message leaves the three gate-relevant fields alone. -/
theorem pumpAll_inert (sc : String) (items : List EngineItem)
    (htask : ∀ it ∈ items, isTaskResult it = false)
    (hterm : ∀ it ∈ items, itemSetsTermination it = false) (s : Session) :
    (pumpAll sc s items).secret_revealed = s.secret_revealed ∧
    (pumpAll sc s items).stop_reason = s.stop_reason ∧
    (pumpAll sc s items).termination_detected = s.termination_detected := by
  induction items generalizing s with
  | nil => simp [pumpAll]
  | cons it items ih =>
    have hit := htask it (by simp)
    have hterm1 := hterm it (by simp)
    have hstep : (pumpItem sc s it).secret_revealed = s.secret_revealed ∧
        (pumpItem sc s it).stop_reason = s.stop_reason ∧
        (pumpItem sc s it).termination_detected = s.termination_detected := by
      cases it with
      | taskResult r => simp [isTaskResult] at hit
      | response m =>
        obtain ⟨h1, h2, _, _, _, h6⟩ := handleChat_flags s m
        rw [pumpItem_response]
        simp [itemSetsTermination] at hterm1
        exact ⟨h1, h2, by simp [h6, hterm1]⟩
      | chatMessage m =>
        obtain ⟨h1, h2, _, _, _, h6⟩ := handleChat_flags s m
        rw [pumpItem_chatMessage]
        simp [itemSetsTermination] at hterm1
        exact ⟨h1, h2, by simp [h6, hterm1]⟩
      | userInputRequested => refine ⟨?_, ?_, ?_⟩ <;> simp [pumpItem, pushOutput]
      | streamingChunk => refine ⟨?_, ?_, ?_⟩ <;> simp [pumpItem]
      | agentEvent src txt => refine ⟨?_, ?_, ?_⟩ <;> simp [pumpItem, pushOutput]
    obtain ⟨b1, b2, b3⟩ := ih (fun x hx => htask x (by simp [hx]))
      (fun x hx => hterm x (by simp [hx])) (pumpItem sc s it)
    rw [pumpAll_cons]
    exact ⟨b1.trans hstep.1, b2.trans hstep.2.1, b3.trans hstep.2.2⟩

/-- A list with at most one hit of `p` is hit-free or splits around a
single hit with hit-free remainders. -/
theorem countP_le_one_split {α : Type} (p : α → Bool) (l : List α)
    (h : l.countP p ≤ 1) :
    l.countP p = 0 ∨
      ∃ l1 x l2, l = l1 ++ x :: l2 ∧ p x = true ∧
        l1.countP p = 0 ∧ l2.countP p = 0 := by
  induction l with
  | nil => left; simp
  | cons a l ih =>
    by_cases ha : p a = true
    · rw [List.countP_cons_of_pos _ _ ha] at h
      right
      exact ⟨[], a, l, rfl, ha, by simp, by omega⟩
    · rw [List.countP_cons_of_neg _ _ ha] at h
      rcases ih h with h0 | ⟨l1, x, l2, heq, hx, h1, hl2⟩
      · left
        rw [List.countP_cons_of_neg _ _ ha]
        exact h0
      · right
        refine ⟨a :: l1, x, l2, by rw [heq]; simp, hx, ?_, hl2⟩
        rw [List.countP_cons_of_neg _ _ ha]
        exact h1

/-! The emission-count invariant: the number of secret-reveal events in the
append-only history always matches the `secret_revealed` flag. -/

theorem goodCount_maybeReveal (sc : String) (s : Session) (h : goodCount s) :
    goodCount (maybeRevealSecret sc s) := by
  unfold goodCount secretCount at h ⊢
  cases h1 : s.secret_revealed with
  | false =>
    cases h2 : (s.termination_detected || stopReasonTriggers s.stop_reason) with
    | false =>
      simp only [maybeRevealSecret, h1, h2]
      simpa [h1] using h
    | true =>
      simp only [maybeRevealSecret, h1, h2]
      simp [emitMessage, List.countP_append, isSecretEvent]
      simpa [h1] using h
  | true =>
    simp only [maybeRevealSecret, h1]
    simp only [if_true]
    simpa [h1] using h

theorem goodCount_handleChat (s : Session) (m : ChatMessage) (h : goodCount s) :
    goodCount (handleChatMessage s m) := by
  obtain ⟨h1, _, _, _, h5, _⟩ := handleChat_flags s m
  unfold goodCount secretCount at h ⊢
  rw [h1, h5, List.countP_append]
  simpa [isSecretEvent] using h

theorem goodCount_pumpItem (sc : String) (s : Session) (it : EngineItem)
    (h : goodCount s) : goodCount (pumpItem sc s it) := by
  cases it with
  | taskResult r => exact goodCount_maybeReveal sc { s with completed := true, stop_reason := r } h
  | response m => exact goodCount_handleChat s m h
  | chatMessage m => exact goodCount_handleChat s m h
  | userInputRequested => exact h
  | streamingChunk => exact h
  | agentEvent src txt => exact h

theorem goodCount_pumpAll (sc : String) (items : List EngineItem) (s : Session)
    (h : goodCount s) : goodCount (pumpAll sc s items) := by
  induction items generalizing s with
  | nil => exact h
  | cons it items ih =>
    rw [pumpAll_cons]
    exact ih (pumpItem sc s it) (goodCount_pumpItem sc s it h)

theorem goodCount_finallyBlock (sc : String) (s : Session) (h : goodCount s) :
    goodCount (finallyBlock sc s) := by
  have h2 := goodCount_maybeReveal sc s h
  by_cases hc : (maybeRevealSecret sc s).completed = true
  · simpa [finallyBlock, hc] using h2
  · simp only [finallyBlock, hc, if_false]
    exact h2

theorem goodCount_runEnd (sc : String) (s : Session) (e : StreamEnd)
    (h : goodCount s) : goodCount (runEnd sc s e) := by
  cases e with
  | exhausted => exact goodCount_finallyBlock sc s h
  | raised msg => exact goodCount_finallyBlock sc _ h

/-- Field bookkeeping for the `TaskResult` arm of the pump: completion is
recorded, the stop reason stored, and the reveal check runs right away. -/
theorem pumpItem_taskResult_flags (sc : String) (s : Session) (r : Option String) :
    (pumpItem sc s (EngineItem.taskResult r)).termination_detected = s.termination_detected ∧
    (pumpItem sc s (EngineItem.taskResult r)).stop_reason = r ∧
    (pumpItem sc s (EngineItem.taskResult r)).completed = true ∧
    (pumpItem sc s (EngineItem.taskResult r)).secret_revealed
      = (s.secret_revealed || (s.termination_detected || stopReasonTriggers r)) := by
  cases h1 : s.secret_revealed with
  | false =>
    cases h2 : (s.termination_detected || stopReasonTriggers r) <;>
      simp [pumpItem, maybeRevealSecret, emitMessage, h1, h2]
  | true => simp [pumpItem, maybeRevealSecret, h1]

/-- After any pump fold with at most one terminal result, starting from an
unrevealed state, the secret flag implies the gate condition. -/
theorem secret_gate_after_pump (sc : String) (items : List EngineItem)
    (hwf : items.countP isTaskResult ≤ 1) (s : Session)
    (h0 : s.secret_revealed = false) :
    (pumpAll sc s items).secret_revealed = true →
      ((pumpAll sc s items).termination_detected
        || stopReasonTriggers (pumpAll sc s items).stop_reason) = true := by
  rcases countP_le_one_split isTaskResult items hwf with hfree | ⟨l1, x, l2, heq, hx, h1, h2⟩
  · obtain ⟨a1, _, _, _⟩ := pumpAll_taskFree sc items hfree s
    rw [a1, h0]
    intro hcontra
    exact absurd hcontra (by simp)
  · subst heq
    cases x with
    | taskResult r =>
      rw [pumpAll_append, pumpAll_cons]
      obtain ⟨a1, _, _, _⟩ := pumpAll_taskFree sc l1 h1 s
      obtain ⟨c1, c2, _, c4⟩ := pumpAll_taskFree sc l2 h2
        (pumpItem sc (pumpAll sc s l1) (EngineItem.taskResult r))
      obtain ⟨m1, m2, _, m5⟩ := pumpItem_taskResult_flags sc (pumpAll sc s l1) r
      intro hrev
      rw [c1, m5, a1, h0] at hrev
      simp only [Bool.false_or] at hrev
      rw [Bool.or_eq_true] at hrev
      rcases hrev with hTD | hTrig
      · have htd2 := c4 (by rw [m1]; exact hTD)
        rw [htd2]
        simp
      · rw [c2, m2]
        simp [hTrig]
    | response m => simp [isTaskResult] at hx
    | chatMessage m => simp [isTaskResult] at hx
    | userInputRequested => simp [isTaskResult] at hx
    | streamingChunk => simp [isTaskResult] at hx
    | agentEvent src txt => simp [isTaskResult] at hx

theorem runPump_def (sc : String) (s : Session) (items : List EngineItem)
    (e : StreamEnd) : runPump sc s items e = runEnd sc (pumpAll sc s items) e := rfl

theorem runEnd_exhausted (sc : String) (s : Session) :
    runEnd sc s StreamEnd.exhausted = finallyBlock sc s := rfl

theorem runEnd_raised (sc : String) (s : Session) (msg : String) :
    runEnd sc s (StreamEnd.raised msg)
      = finallyBlock sc (emitStatus { s with completed := true } "error" (some msg)) := rfl

/-- Any complete pump run from an unrevealed, count-consistent state emits
secret events according to its own final flag, which in turn equals the
gate condition on the final state. -/
theorem gate_run_characterization (sc : String) (items : List EngineItem)
    (ending : StreamEnd) (hwf : items.countP isTaskResult ≤ 1) (s : Session)
    (h0 : s.secret_revealed = false) (hg : goodCount s) :
    secretCount (runPump sc s items ending)
      = (if (runPump sc s items ending).secret_revealed then 1 else 0) ∧
    (runPump sc s items ending).secret_revealed
      = ((runPump sc s items ending).termination_detected
        || stopReasonTriggers (runPump sc s items ending).stop_reason) := by
  obtain ⟨e1, e2, _, e4⟩ := runEnd_flags sc (pumpAll sc s items) ending
  have hgate := secret_gate_after_pump sc items hwf s h0
  have hgood := goodCount_runEnd sc (pumpAll sc s items) ending
    (goodCount_pumpAll sc items s hg)
  constructor
  · exact hgood
  · rw [runPump_def, e1, e2, e4]
    cases hrev : (pumpAll sc s items).secret_revealed
    · simp
    · have h2 := hgate hrev
      simp [h2]

/-- Claim C1: over any run of the pump of a session (at most one terminal result
per engine stream), the secret-reveal event is emitted at most once; it is
emitted exactly once iff the final state has termination detected or a stop
reason containing the marker; and when the stream fails without a terminal
result or marker-bearing message, no secret is ever emitted. -/
theorem C1_secret_release_gate (sc id : String) (items : List EngineItem)
    (ending : StreamEnd) (hwf : items.countP isTaskResult ≤ 1) :
    secretCount (runPump sc (start (initSession id)) items ending) ≤ 1 ∧
    (secretCount (runPump sc (start (initSession id)) items ending) = 1 ↔
      ((runPump sc (start (initSession id)) items ending).termination_detected = true ∨
        stopReasonTriggers
          (runPump sc (start (initSession id)) items ending).stop_reason = true)) ∧
    (∀ msg : String,
      (∀ it ∈ items, isTaskResult it = false) →
      (∀ it ∈ items, itemSetsTermination it = false) →
      secretCount (runPump sc (start (initSession id)) items (StreamEnd.raised msg)) = 0) := by
  have h0 : (start (initSession id)).secret_revealed = false := by
    rw [start_initSession]
  have hg : goodCount (start (initSession id)) := by
    unfold goodCount secretCount
    rw [start_initSession]
    simp [isSecretEvent]
  obtain ⟨hc, hk⟩ := gate_run_characterization sc items ending hwf _ h0 hg
  refine ⟨?_, ?_, ?_⟩
  · rw [hc]
    split <;> simp
  · rw [hc, hk]
    cases htd : (runPump sc (start (initSession id)) items ending).termination_detected <;>
      cases htr : stopReasonTriggers
        (runPump sc (start (initSession id)) items ending).stop_reason <;>
      simp [htd, htr]
  · intro msg htask hterm
    obtain ⟨hc2, _⟩ := gate_run_characterization sc items (StreamEnd.raised msg) hwf _ h0 hg
    obtain ⟨i1, i2, i3⟩ := pumpAll_inert sc items htask hterm (start (initSession id))
    obtain ⟨_, _, _, e4⟩ := runEnd_flags sc (pumpAll sc (start (initSession id)) items)
      (StreamEnd.raised msg)
    rw [hc2]
    have hrev : (runPump sc (start (initSession id)) items
        (StreamEnd.raised msg)).secret_revealed = false := by
      rw [runPump_def, e4, i1, i2, i3, h0, start_initSession]
      simp [stopReasonTriggers]
    rw [hrev]
    simp

/-- Witness for C1: a stream ending in a terminal result whose stop reason
contains the marker reveals the secret exactly once. -/
theorem C1_secret_release_gate_witness :
    ([EngineItem.taskResult (some "Text TERMINATE mentioned")].countP isTaskResult ≤ 1) ∧
    secretCount (runPump "s3cr3t" (start (initSession "sid"))
      [EngineItem.taskResult (some "Text TERMINATE mentioned")] StreamEnd.exhausted) = 1 := by
  constructor
  · decide
  · have h := C1_secret_release_gate "s3cr3t" "sid"
      [EngineItem.taskResult (some "Text TERMINATE mentioned")] StreamEnd.exhausted (by decide)
    exact h.2.1.mpr (Or.inr (by decide))

/-! Status-event bookkeeping for the terminal-signal claim. -/

theorem statusCount_emitStatus (s : Session) (c : String) (d : Option String) :
    statusCount (emitStatus s c d).output_queue = statusCount s.output_queue + 1 := by
  simp [emitStatus, statusCount, List.countP_append, isStatusEvent]

theorem statusCount_maybeReveal (sc : String) (s : Session) :
    statusCount (maybeRevealSecret sc s).output_queue = statusCount s.output_queue := by
  cases h1 : s.secret_revealed with
  | false =>
    cases h2 : (s.termination_detected || stopReasonTriggers s.stop_reason) <;>
      simp [maybeRevealSecret, h1, h2, emitMessage, statusCount, List.countP_append,
        isStatusEvent]
  | true => simp [maybeRevealSecret, h1]

theorem statusCount_finallyBlock_ge (sc : String) (s : Session) :
    statusCount s.output_queue ≤ statusCount (finallyBlock sc s).output_queue := by
  simp only [finallyBlock]
  by_cases hc : (maybeRevealSecret sc s).completed = true
  · rw [if_pos hc, statusCount_maybeReveal]
  · rw [if_neg hc, statusCount_emitStatus]
    have h2 : statusCount ({ maybeRevealSecret sc s with completed := true } : Session).output_queue
        = statusCount s.output_queue := by
      show statusCount (maybeRevealSecret sc s).output_queue = statusCount s.output_queue
      exact statusCount_maybeReveal sc s
    rw [h2]
    omega

theorem statusCount_runEnd_raised (sc : String) (s : Session) (msg : String) :
    1 ≤ statusCount (runEnd sc s (StreamEnd.raised msg)).output_queue := by
  rw [runEnd_raised]
  have h1 := statusCount_finallyBlock_ge sc (emitStatus { s with completed := true } "error" (some msg))
  have h2 := statusCount_emitStatus { s with completed := true } "error" (some msg)
  omega

theorem statusCount_finallyBlock_not_completed (sc : String) (s : Session)
    (h : s.completed = false) :
    1 ≤ statusCount (finallyBlock sc s).output_queue := by
  have hc : (maybeRevealSecret sc s).completed = false := by
    obtain ⟨_, _, c, _, _⟩ := maybeReveal_flags sc s
    rw [c, h]
  simp only [finallyBlock]
  rw [if_neg (by simp [hc]), statusCount_emitStatus]
  omega

/-- Claim C3 counterexample: the claim says every way the pump run can end
emits at least one status event, but a stream ending with a terminal result
(here one whose stop reason mentions the marker) sets `completed` in the
loop body, so the `finally` block emits nothing: the run ends with zero
status events on the output queue. -/
theorem C3_counterexample :
    (runPump "s3cr3t" (start (initSession "sid"))
      [EngineItem.taskResult (some "Text TERMINATE mentioned")]
      StreamEnd.exhausted).completed = true ∧
    statusCount (runPump "s3cr3t" (start (initSession "sid"))
      [EngineItem.taskResult (some "Text TERMINATE mentioned")]
      StreamEnd.exhausted).output_queue = 0 := by
  constructor <;> decide

/-- Claim C3 as amended: every way the pump run can end leaves `completed`
true; a status event is additionally emitted when the run ends by an
exception, or when the stream is exhausted without a terminal result —
but a run that received a terminal result signals completion through the
`completed` flag alone, with no extra status event. -/
theorem C3_terminal_event (sc id : String) (items : List EngineItem)
    (ending : StreamEnd) :
    (runPump sc (start (initSession id)) items ending).completed = true ∧
    (∀ msg, ending = StreamEnd.raised msg →
      1 ≤ statusCount (runPump sc (start (initSession id)) items ending).output_queue) ∧
    (ending = StreamEnd.exhausted → items.countP isTaskResult = 0 →
      1 ≤ statusCount (runPump sc (start (initSession id)) items ending).output_queue) := by
  refine ⟨?_, ?_, ?_⟩
  · exact (runEnd_flags sc (pumpAll sc (start (initSession id)) items) ending).2.2.1
  · intro msg hmsg
    subst hmsg
    rw [runPump_def]
    exact statusCount_runEnd_raised sc _ msg
  · intro hend h0
    subst hend
    rw [runPump_def, runEnd_exhausted]
    apply statusCount_finallyBlock_not_completed
    obtain ⟨_, _, c, _⟩ := pumpAll_taskFree sc items h0 (start (initSession id))
    rw [c, start_initSession]

/-- Witness for the amended C3: stream exhaustion with no terminal result
marks completion and emits the "ended" status event. -/
theorem C3_terminal_event_witness :
    (runPump "s3cr3t" (start (initSession "sid")) [] StreamEnd.exhausted).completed = true ∧
    1 ≤ statusCount (runPump "s3cr3t" (start (initSession "sid")) []
      StreamEnd.exhausted).output_queue := by
  have h := C3_terminal_event "s3cr3t" "sid" [] StreamEnd.exhausted
  exact ⟨h.1, h.2.2 rfl (by decide)⟩

/-- Claim C2: the live-message scan of `_handle_chat_message` is a
case-sensitive substring match for the marker, while the stop-reason check
of `_maybe_reveal_secret` upper-cases the stop reason first, so any casing
of the marker in the stop reason triggers; a message carrying the marker
only in a different casing does not set termination-detected, while the
same text as a stop reason does trigger. -/
theorem C2_case_asymmetry :
    (∀ (s : Session) (m : ChatMessage),
      (handleChatMessage s m).termination_detected
        = (s.termination_detected || strContains m.text TERMINATE_MARKER)) ∧
    (∀ r : String,
      stopReasonTriggers (some r) = strContains (pyUpper r) TERMINATE_MARKER) ∧
    (handleChatMessage (initSession "t")
      ⟨"unhelpful_assistant", "please Terminate now"⟩).termination_detected = false ∧
    stopReasonTriggers (some "please Terminate now") = true := by
  refine ⟨?_, ?_, by decide, by decide⟩
  · intro s m
    exact (handleChat_flags s m).2.2.2.2.2
  · intro r
    by_cases h : r == ""
    · have h2 : r = "" := by simpa using h
      subst h2
      decide
    · simp [stopReasonTriggers, h]

/-- Claim C4: with a registered session and a valid timeout, the events
endpoint returns (never errors) the batch it drained: everything that was
immediately available plus what arrived before its final drain; when the
first drain was empty and the timeout positive, exactly the arrivals
(so a timeout with no arrival yields the empty list), always together with
the `completed` and `secret_unlocked` flags. -/
theorem C4_events_long_poll (mgr : SessionManager) (id : String) (timeout : Rat)
    (arrivals : List Event) (s : Session) (hs : mgr id = some s)
    (_h0 : 0 ≤ timeout) (_h30 : timeout ≤ 30) :
    (get_events mgr id timeout arrivals).1 =
      Except.ok ⟨if s.output_queue = [] ∧ 0 < timeout then arrivals
                 else s.output_queue ++ arrivals,
                 s.completed, s.secret_revealed⟩ := by
  by_cases hcond : s.output_queue = [] ∧ 0 < timeout
  · simp only [get_events, get_session, hs, drainOutputNowait, if_pos hcond]
    cases arrivals <;> simp
  · simp only [get_events, get_session, hs, drainOutputNowait, if_neg hcond]

/-- Witness for C4: polling a session with one pending event and timeout 5
returns that event and the flags. -/
theorem C4_events_long_poll_witness :
    (get_events mgrOne "abc" 5 []).1
      = Except.ok ⟨[Event.inputRequired], false, false⟩ := by
  have h := C4_events_long_poll mgrOne "abc" 5 [] sampleSession (by decide)
    (by norm_num) (by norm_num)
  rw [h]
  simp [sampleSession, initSession]

/-- Claim C5: the message endpoint on a registered session rejects content
that is empty after stripping with a 400 and leaves the registry (hence
the input queue and transcript of the session) untouched; otherwise it stores
the session with the stripped content enqueued and acknowledges with
status "accepted". -/
theorem C5_message_validation (mgr : SessionManager) (id content : String)
    (s : Session) (hs : mgr id = some s) :
    (pyStrip content = "" →
      send_message mgr id content
        = (Except.error ⟨400, "Message cannot be empty"⟩, mgr)) ∧
    (pyStrip content ≠ "" →
      send_message mgr id content =
        (Except.ok ⟨"accepted"⟩,
          setSession mgr id (enqueueUserMessage s (pyStrip content)))) := by
  constructor
  · intro h
    simp only [send_message, get_session, hs]
    rw [if_pos h]
  · intro h
    simp only [send_message, get_session, hs]
    rw [if_neg h]

/-- Witness for C5: a whitespace-only body is rejected with 400 leaving the
registry unchanged, and a padded body is accepted. -/
theorem C5_message_validation_witness :
    send_message mgrOne "abc" "   "
      = (Except.error ⟨400, "Message cannot be empty"⟩, mgrOne) ∧
    send_message mgrOne "abc" " hi " =
      (Except.ok ⟨"accepted"⟩,
        setSession mgrOne "abc" (enqueueUserMessage sampleSession (pyStrip " hi "))) := by
  refine ⟨?_, ?_⟩
  · exact (C5_message_validation mgrOne "abc" "   " sampleSession (by decide)).1 (by decide)
  · exact (C5_message_validation mgrOne "abc" " hi " sampleSession (by decide)).2 (by decide)

/-- Claim C6: an identifier absent from the registry makes both the
message and the events endpoint fail with 404 and leaves the registry
exactly as it was. -/
theorem C6_unknown_session (mgr : SessionManager) (id : String)
    (h : mgr id = none) (content : String) (timeout : Rat)
    (arrivals : List Event) :
    send_message mgr id content = (Except.error ⟨404, "Session not found"⟩, mgr) ∧
    get_events mgr id timeout arrivals
      = (Except.error ⟨404, "Session not found"⟩, mgr) := by
  constructor
  · simp only [send_message, get_session, h]
  · simp only [get_events, get_session, h]

/-- Witness for C6 on the empty registry. -/
theorem C6_unknown_session_witness :
    send_message mgrEmpty "nope" "hello"
      = (Except.error ⟨404, "Session not found"⟩, mgrEmpty) ∧
    get_events mgrEmpty "nope" 5 []
      = (Except.error ⟨404, "Session not found"⟩, mgrEmpty) :=
  C6_unknown_session mgrEmpty "nope" rfl "hello" 5 []

/-! Lifecycle of `start`. -/

theorem start_sets_task (s : Session) : (start s).task_started = true := by
  by_cases h : s.task_started = true
  · simp [start, h]
  · simp [start, h, emitMessage]

theorem start_of_started (s : Session) (h : s.task_started = true) : start s = s := by
  simp [start, h]

/-- Claim C7: `start` is idempotent — a second call is a no-op — and a
first call pushes the synthetic greeting into history and output (so the
output queue is nonempty on return) and records the launched task. -/
theorem C7_start_idempotent (s : Session) :
    start (start s) = start s ∧
    (s.task_started = false →
      (start s).history
        = s.history ++ [Event.tagged "message" GREETING_ROLE GREETING_MESSAGE] ∧
      (start s).output_queue
        = s.output_queue ++ [Event.tagged "message" GREETING_ROLE GREETING_MESSAGE] ∧
      (start s).output_queue ≠ [] ∧
      (start s).task_started = true) ∧
    (s.task_started = true → start s = s) := by
  refine ⟨start_of_started (start s) (start_sets_task s), ?_, fun h => start_of_started s h⟩
  intro h
  refine ⟨?_, ?_, ?_, ?_⟩ <;> simp [start, h, emitMessage]

/-- Witness for C7 on a fresh session. -/
theorem C7_start_idempotent_witness :
    (start (initSession "w")).history
      = [Event.tagged "message" GREETING_ROLE GREETING_MESSAGE] ∧
    (start (initSession "w")).task_started = true ∧
    start (start (initSession "w")) = start (initSession "w") := by
  obtain ⟨h1, h2, _⟩ := C7_start_idempotent (initSession "w")
  obtain ⟨a, _, _, d⟩ := h2 rfl
  exact ⟨by simpa using a, d, h1⟩

/-! FIFO bookkeeping of the two queues. -/

theorem pushOutputs_queue (s : Session) (evs : List Event) :
    (pushOutputs s evs).output_queue = s.output_queue ++ evs := by
  induction evs generalizing s with
  | nil => simp [pushOutputs]
  | cons e evs ih =>
    have h := ih (pushOutput s e)
    simp only [pushOutputs] at h ⊢
    rw [List.foldl_cons, h]
    simp [pushOutput]

theorem enqueueAll_queue (s : Session) (msgs : List String) :
    (enqueueAll s msgs).input_queue = s.input_queue ++ msgs := by
  induction msgs generalizing s with
  | nil => simp [enqueueAll]
  | cons m msgs ih =>
    have h := ih (enqueueUserMessage s m)
    simp only [enqueueAll] at h ⊢
    rw [List.foldl_cons, h]
    simp [enqueueUserMessage]

theorem userInputTake_fst (s : Session) :
    (userInputTake s).map Prod.fst = s.input_queue.head? := by
  cases hq : s.input_queue <;> simp [userInputTake, hq]

/-- Claim C8: `drain_output_nowait` returns all pending output events as an
ordered list (empty if none) and removes each exactly once; producer pushes
are delivered in push order, and posted messages reach the input `get` of the engine
in posting order (the next `get` sees the earliest queued message). -/
theorem C8_fifo_order (s : Session) (evs : List Event) (msgs : List String) :
    (drainOutputNowait s).1 = s.output_queue ∧
    (drainOutputNowait s).2.output_queue = [] ∧
    (drainOutputNowait (pushOutputs s evs)).1 = (drainOutputNowait s).1 ++ evs ∧
    (enqueueAll s msgs).input_queue = s.input_queue ++ msgs ∧
    (userInputTake (enqueueAll s msgs)).map Prod.fst = (s.input_queue ++ msgs).head? := by
  refine ⟨rfl, rfl, ?_, enqueueAll_queue s msgs, ?_⟩
  · show (pushOutputs s evs).output_queue = s.output_queue ++ evs
    exact pushOutputs_queue s evs
  · rw [userInputTake_fst, enqueueAll_queue]

/-- Claim C9: a successful `send_message` stores, under the same id, the
session with exactly the stripped content appended to its input queue,
touching neither the transcript nor anything else the engine reads. -/
theorem C9_enqueues_stripped (mgr : SessionManager) (id content : String)
    (s : Session) (hs : mgr id = some s) (hne : pyStrip content ≠ "") :
    (send_message mgr id content).2 id
      = some (enqueueUserMessage s (pyStrip content)) ∧
    (enqueueUserMessage s (pyStrip content)).input_queue
      = s.input_queue ++ [pyStrip content] ∧
    (enqueueUserMessage s (pyStrip content)).history = s.history := by
  refine ⟨?_, rfl, rfl⟩
  simp only [send_message, get_session, hs]
  rw [if_neg hne]
  simp [setSession]

/-- Witness for C9: posting a padded body stores the stripped text. -/
theorem C9_enqueues_stripped_witness :
    (send_message mgrOne "abc" "  hi ").2 "abc"
      = some (enqueueUserMessage sampleSession "hi") ∧
    (enqueueUserMessage sampleSession "hi").input_queue = ["hi"] := by
  have h := C9_enqueues_stripped mgrOne "abc" "  hi " sampleSession (by decide) (by decide)
  constructor
  · have e : pyStrip "  hi " = "hi" := by decide
    rw [← e]
    exact h.1
  · decide

/-! Flag monotonicity over every session operation. -/

theorem stepOp_mono (sc : String) (s : Session) (op : SessionOp) :
    (s.completed = true → (stepOp sc s op).completed = true) ∧
    (s.termination_detected = true → (stepOp sc s op).termination_detected = true) ∧
    (s.secret_revealed = true → (stepOp sc s op).secret_revealed = true) := by
  cases op with
  | startOp =>
    refine ⟨fun hh => ?_, fun hh => ?_, fun hh => ?_⟩ <;>
      by_cases h : s.task_started = true <;> simp [stepOp, start, h, emitMessage, hh]
  | enqueueOp c => exact ⟨fun h => h, fun h => h, fun h => h⟩
  | drainOp => exact ⟨fun h => h, fun h => h, fun h => h⟩
  | userInputOp =>
    refine ⟨fun hh => ?_, fun hh => ?_, fun hh => ?_⟩ <;>
      cases hq : s.input_queue <;> simp [stepOp, userInputTake, hq, hh]
  | pump it =>
    cases it with
    | taskResult r =>
      obtain ⟨m1, _, m3, m5⟩ := pumpItem_taskResult_flags sc s r
      refine ⟨fun _ => ?_, fun hh => ?_, fun hh => ?_⟩
      · show (pumpItem sc s (EngineItem.taskResult r)).completed = true
        exact m3
      · show (pumpItem sc s (EngineItem.taskResult r)).termination_detected = true
        rw [m1]; exact hh
      · show (pumpItem sc s (EngineItem.taskResult r)).secret_revealed = true
        rw [m5, hh]; simp
    | response m =>
      obtain ⟨h1, _, h3, _, _, h6⟩ := handleChat_flags s m
      refine ⟨fun hh => ?_, fun hh => ?_, fun hh => ?_⟩
      · show (pumpItem sc s (EngineItem.response m)).completed = true
        rw [pumpItem_response, h3]; exact hh
      · show (pumpItem sc s (EngineItem.response m)).termination_detected = true
        rw [pumpItem_response, h6, hh]; simp
      · show (pumpItem sc s (EngineItem.response m)).secret_revealed = true
        rw [pumpItem_response, h1]; exact hh
    | chatMessage m =>
      obtain ⟨h1, _, h3, _, _, h6⟩ := handleChat_flags s m
      refine ⟨fun hh => ?_, fun hh => ?_, fun hh => ?_⟩
      · show (pumpItem sc s (EngineItem.chatMessage m)).completed = true
        rw [pumpItem_chatMessage, h3]; exact hh
      · show (pumpItem sc s (EngineItem.chatMessage m)).termination_detected = true
        rw [pumpItem_chatMessage, h6, hh]; simp
      · show (pumpItem sc s (EngineItem.chatMessage m)).secret_revealed = true
        rw [pumpItem_chatMessage, h1]; exact hh
    | userInputRequested => exact ⟨fun h => h, fun h => h, fun h => h⟩
    | streamingChunk => exact ⟨fun h => h, fun h => h, fun h => h⟩
    | agentEvent a b => exact ⟨fun h => h, fun h => h, fun h => h⟩
  | exceptOp msg => exact ⟨fun _ => rfl, fun h => h, fun h => h⟩
  | finallyOp =>
    obtain ⟨f1, _, f3, f4⟩ := finallyBlock_flags sc s
    refine ⟨fun _ => ?_, fun hh => ?_, fun hh => ?_⟩
    · show (finallyBlock sc s).completed = true
      exact f3
    · show (finallyBlock sc s).termination_detected = true
      rw [f1]; exact hh
    · show (finallyBlock sc s).secret_revealed = true
      rw [f4, hh]; simp

/-- Claim C10: the three session flags are monotone — no sequence of
session operations ever resets `completed`, `termination_detected`, or
`secret_revealed` from true back to false. -/
theorem C10_flags_monotone (sc : String) (s : Session) (ops : List SessionOp) :
    (s.completed = true → (runOps sc s ops).completed = true) ∧
    (s.termination_detected = true → (runOps sc s ops).termination_detected = true) ∧
    (s.secret_revealed = true → (runOps sc s ops).secret_revealed = true) := by
  induction ops generalizing s with
  | nil => exact ⟨fun h => h, fun h => h, fun h => h⟩
  | cons op ops ih =>
    obtain ⟨a1, a2, a3⟩ := stepOp_mono sc s op
    obtain ⟨b1, b2, b3⟩ := ih (stepOp sc s op)
    exact ⟨fun h => b1 (a1 h), fun h => b2 (a2 h), fun h => b3 (a3 h)⟩

/-- Witness for C10: an already-raised trio of flags survives a drain, an
input-queue wait, and the finally block. -/
theorem C10_flags_monotone_witness :
    (runOps "c" flaggedSession
      [SessionOp.drainOp, SessionOp.userInputOp, SessionOp.finallyOp]).completed = true ∧
    (runOps "c" flaggedSession
      [SessionOp.drainOp, SessionOp.userInputOp, SessionOp.finallyOp]).termination_detected = true ∧
    (runOps "c" flaggedSession
      [SessionOp.drainOp, SessionOp.userInputOp, SessionOp.finallyOp]).secret_revealed = true := by
  have h := C10_flags_monotone "c" flaggedSession
    [SessionOp.drainOp, SessionOp.userInputOp, SessionOp.finallyOp]
  exact ⟨h.1 rfl, h.2.1 rfl, h.2.2 rfl⟩

end GatekeeperApp
